import Mathlib

/-!
Verification of the p0tion contribution-queue coordinator.

The development shallowly embeds:
* the `CeremoniesController` routes and their guard lists (src/unnamed/part_000);
* the setup-wizard validation flows `promptCeremonyInputData` and
  `promptCircuitInputData` (src/packages/phase2cli/src/lib/prompts.ts),
  modelled as functions from a candidate answer record to an optional
  validated configuration (a rejected answer yields `none`);
* the queue / timeout / finalizer core, whose implementation is not part of
  the source tree; those definitions are modelled from the specification
  (sections 4.1 to 4.6) and are marked as such in their doc comments.

Times and durations are rationals (minutes); participant identifiers are
naturals; hashes are naturals with genesis value 0.
-/

namespace P0tion

/-- Ceremony lifecycle states (spec section 3). -/
inductive CeremonyState
  | SCHEDULED
  | OPENED
  | CLOSED
  | FINALIZED
deriving DecidableEq, Repr

/-- Timeout mechanism selector, the `CeremonyTimeoutType` enum of prompts.ts. -/
inductive CeremonyTimeoutType
  | DYNAMIC
  | FIXED
deriving DecidableEq, Repr

/-- Per-circuit participant status (spec section 3); `NONE` means the
participant has not joined the circuit. -/
inductive PStatus
  | NONE
  | WAITING
  | CONTRIBUTING
  | VERIFYING
  | DONE
  | TIMED_OUT
deriving DecidableEq, Repr

/-- Error taxonomy of the coordinator (spec section 7). -/
inductive CoordError
  | CEREMONY_NOT_OPEN
  | PENALTY_ACTIVE
  | UNAUTHORIZED_SLOT
  | UNAUTHORIZED
  | CEREMONY_NOT_CLOSED
  | INCOMPLETE_CIRCUIT
  | CEREMONY_ALREADY_FINALIZED
  | VALIDATION_ERROR
  | VERIFICATION_FAILED
deriving DecidableEq, Repr

/-- One verified update to the circuit's parameter chain (spec section 3). -/
structure Contribution where
  participantId : Nat
  sequenceNumber : Nat
  previousHash : Nat
  computedHash : Nat
  verified : Bool
  terminal : Bool
  durationMs : ℚ
deriving DecidableEq, Repr

/-- The active contributing slot of a circuit (spec section 3,
`currentContributor`). -/
structure Slot where
  participantId : Nat
  startedAt : ℚ
  deadline : ℚ
deriving DecidableEq, Repr

/-- Record of an eviction, used solely to compute penalty expiry
(spec section 3). -/
structure TimeoutEvent where
  participantId : Nat
  timestamp : ℚ
deriving DecidableEq, Repr

/-- Modelled from the spec: the coordinator core is not under src/.  State of
one circuit together with the fields of its owning ceremony that the queue,
timeout and finalizer operations consult (spec sections 3, 4.2, 4.3, 4.5). -/
structure CoordState where
  ceremonyState : CeremonyState
  coordinatorId : Nat
  penaltyMinutes : ℚ
  timeoutMechanismType : CeremonyTimeoutType
  dynamicThreshold : ℚ
  fixedTimeWindow : ℚ
  baselineAvg : ℚ
  avg : Option ℚ
  currentContributor : Option Slot
  waitingQueue : List Nat
  contributions : List Contribution
  timeoutEvents : List TimeoutEvent
  status : Nat → PStatus
  timeoutCount : Nat → Nat

/-- Current running average of verified contribution durations, falling back
to the configured baseline when no contribution exists yet (spec section 4.3). -/
def currentAvg (s : CoordState) : ℚ :=
  s.avg.getD s.baselineAvg

/-- Modelled from the spec: deadline computation of the Timeout Monitor
(spec section 4.3).  FIXED: startedAt + fixedTimeWindow.  DYNAMIC:
startedAt + avg * (1 + threshold / 100). -/
def computeDeadline (s : CoordState) (startedAt : ℚ) : ℚ :=
  match s.timeoutMechanismType with
  | CeremonyTimeoutType.FIXED => startedAt + s.fixedTimeWindow
  | CeremonyTimeoutType.DYNAMIC => startedAt + currentAvg s * (1 + s.dynamicThreshold / 100)

/-- Running-average update after a verified contribution (spec section 4.3):
avg becomes (avg * n + durationMs) / (n + 1). -/
def updateAvg (avg : ℚ) (n : Nat) (d : ℚ) : ℚ :=
  (avg * n + d) / (n + 1)

/-- Number of verified contributions stored on the circuit. -/
def verifiedCount (s : CoordState) : Nat :=
  (s.contributions.filter (fun c => c.verified)).length

/-- Hash of the last stored contribution, or the genesis value 0
(spec section 3, previousHash). -/
def lastHash (s : CoordState) : Nat :=
  match s.contributions.getLast? with
  | none => 0
  | some c => c.computedHash

/-- The participant holds a live timeout penalty: some TimeoutEvent of theirs
satisfies timestamp + penaltyMinutes > now (spec section 4.2). -/
def penaltyActive (s : CoordState) (pid : Nat) (now : ℚ) : Bool :=
  s.timeoutEvents.any (fun te => te.participantId == pid && decide (now < te.timestamp + s.penaltyMinutes))

/-- Outcome of a successful `requestSlot` (spec section 4.2): either the slot
was granted with a deadline, or the caller was enqueued at a 1-based position. -/
inductive SlotOutcome
  | granted (deadline : ℚ)
  | queued (position : Nat)
deriving DecidableEq, Repr

/-- Modelled from the spec: Queue Manager `requestSlot` (spec section 4.2).
Fails CEREMONY_NOT_OPEN unless the ceremony is OPENED; fails PENALTY_ACTIVE
under a live penalty; grants the free slot (status becomes CONTRIBUTING) or
appends to the waiting queue (status becomes WAITING; re-requesting while
queued is a no-op returning the current position). -/
def requestSlot (s : CoordState) (pid : Nat) (now : ℚ) :
    Except CoordError SlotOutcome × CoordState :=
  if s.ceremonyState = CeremonyState.OPENED then
    if penaltyActive s pid now then (Except.error CoordError.PENALTY_ACTIVE, s)
    else
      match s.currentContributor with
      | none =>
          (Except.ok (SlotOutcome.granted (computeDeadline s now)),
           { s with
              currentContributor := some ⟨pid, now, computeDeadline s now⟩,
              status := fun q => if q = pid then PStatus.CONTRIBUTING else s.status q })
      | some _ =>
          match s.waitingQueue.findIdx? (fun q => q == pid) with
          | some i => (Except.ok (SlotOutcome.queued (i + 1)), s)
          | none =>
              (Except.ok (SlotOutcome.queued (s.waitingQueue.length + 1)),
               { s with
                  waitingQueue := s.waitingQueue ++ [pid],
                  status := fun q => if q = pid then PStatus.WAITING else s.status q })
  else (Except.error CoordError.CEREMONY_NOT_OPEN, s)

/-- Modelled from the spec: Queue Manager `releaseSlot` (spec section 4.2),
called only by the Contribution Chain Validator on success or the Timeout
Monitor on eviction.  Clears the slot; if the queue is non-empty, promotes its
head with a freshly computed deadline, transitioning it to CONTRIBUTING. -/
def releaseSlot (s : CoordState) (now : ℚ) : CoordState :=
  match s.waitingQueue with
  | [] => { s with currentContributor := none }
  | w :: t =>
      { s with
          currentContributor := some ⟨w, now, computeDeadline s now⟩,
          waitingQueue := t,
          status := fun q => if q = w then PStatus.CONTRIBUTING else s.status q }

/-- Modelled from the spec: Contribution Chain Validator `submitContribution`
(spec section 4.4).  Fails CEREMONY_ALREADY_FINALIZED after finalization and
UNAUTHORIZED_SLOT when the caller does not hold the slot; on verifier success
stores the verified contribution, refreshes the running average and releases
the slot with status DONE; on verifier failure records a penalty entry and
releases the slot with status TIMED_OUT. -/
def submitContribution (s : CoordState) (pid : Nat) (now : ℚ)
    (verifierOk : Bool) (newHash : Nat) :
    Except CoordError Unit × CoordState :=
  if s.ceremonyState = CeremonyState.FINALIZED then
    (Except.error CoordError.CEREMONY_ALREADY_FINALIZED, s)
  else
    match s.currentContributor with
    | none => (Except.error CoordError.UNAUTHORIZED_SLOT, s)
    | some c =>
        if c.participantId = pid then
          if verifierOk then
            (Except.ok (),
             releaseSlot
               { s with
                  contributions := s.contributions ++
                    [⟨pid, s.contributions.length + 1, lastHash s, newHash, true, false,
                      now - c.startedAt⟩],
                  avg := some (updateAvg (currentAvg s) (verifiedCount s) (now - c.startedAt)),
                  status := fun q => if q = pid then PStatus.DONE else s.status q }
               now)
          else
            (Except.error CoordError.VERIFICATION_FAILED,
             releaseSlot
               { s with
                  timeoutEvents := s.timeoutEvents ++ [⟨pid, now⟩],
                  status := fun q => if q = pid then PStatus.TIMED_OUT else s.status q }
               now)
        else (Except.error CoordError.UNAUTHORIZED_SLOT, s)

/-- Modelled from the spec: Timeout Monitor `checkTimeouts` (spec section
4.3).  On an OPENED ceremony whose active contributor is past the deadline:
marks it TIMED_OUT, records a TimeoutEvent, increments timeoutCount and
releases the slot. -/
def checkTimeouts (s : CoordState) (now : ℚ) : CoordState :=
  if s.ceremonyState = CeremonyState.OPENED then
    match s.currentContributor with
    | none => s
    | some c =>
        if c.deadline < now then
          releaseSlot
            { s with
                timeoutEvents := s.timeoutEvents ++ [⟨c.participantId, now⟩],
                timeoutCount := fun q =>
                  if q = c.participantId then s.timeoutCount q + 1 else s.timeoutCount q,
                status := fun q =>
                  if q = c.participantId then PStatus.TIMED_OUT else s.status q }
            now
        else s
  else s

/-- The circuit holds at least one verified contribution marked terminal
(spec section 4.5, finalize precondition). -/
def hasTerminalVerified (s : CoordState) : Bool :=
  s.contributions.any (fun c => c.verified && c.terminal)

/-- Modelled from the spec: the Finalizer `finalize` (spec section 4.5).
Fails UNAUTHORIZED unless the caller is the ceremony coordinator; is
idempotent on a FINALIZED ceremony; otherwise requires a CLOSED ceremony and
a terminal verified contribution, then transitions CLOSED to FINALIZED. -/
def finalize (s : CoordState) (callerId : Nat) :
    Except CoordError Unit × CoordState :=
  if callerId = s.coordinatorId then
    if s.ceremonyState = CeremonyState.FINALIZED then (Except.ok (), s)
    else if s.ceremonyState = CeremonyState.CLOSED then
      if hasTerminalVerified s then
        (Except.ok (), { s with ceremonyState := CeremonyState.FINALIZED })
      else (Except.error CoordError.INCOMPLETE_CIRCUIT, s)
    else (Except.error CoordError.CEREMONY_NOT_CLOSED, s)
  else (Except.error CoordError.UNAUTHORIZED, s)

/-- Caller context seen by the controller guards: whether the JWT session is
valid, and the resolved caller identity. -/
structure AuthCtx where
  validSession : Bool
  callerId : Nat
deriving DecidableEq, Repr

/-- The JWTGuard of src/unnamed/part_000: passes when the caller holds a
valid session. -/
def jwtGuard (a : AuthCtx) : Bool :=
  a.validSession

/-- Modelled from the spec: the CeremonyGuard implementation is not under
src/.  Sections 4.5 and 4.6 specify the guard of coordinator-only operations
as the check callerId = ceremony.coordinatorId. -/
def ceremonyGuard (s : CoordState) (a : AuthCtx) : Bool :=
  a.callerId == s.coordinatorId

/-- Response body of the diagnostic slot-echo route of
src/unnamed/part_000: the object holding the echoed ceremonyId. -/
structure EchoBody where
  ceremonyId : Nat
deriving DecidableEq, Repr

/-- The `testing-ceremony` route of src/unnamed/part_000: guarded by JWTGuard
and CeremonyGuard, it returns the object carrying the very ceremonyId it was
given; a failed guard yields UNAUTHORIZED. -/
def testingCeremony (s : CoordState) (a : AuthCtx) (ceremonyId : Nat) :
    Except CoordError EchoBody :=
  if jwtGuard a then
    if ceremonyGuard s a then Except.ok ⟨ceremonyId⟩
    else Except.error CoordError.UNAUTHORIZED
  else Except.error CoordError.UNAUTHORIZED

/-- The `finalize-ceremony` route of src/unnamed/part_000: guarded by
JWTGuard and CeremonyGuard, then delegates to the service finalize. -/
def finalizeCeremony (s : CoordState) (a : AuthCtx) :
    Except CoordError Unit × CoordState :=
  if jwtGuard a then
    if ceremonyGuard s a then finalize s a.callerId
    else (Except.error CoordError.UNAUTHORIZED, s)
  else (Except.error CoordError.UNAUTHORIZED, s)

/-- Input payload of the create route (the CeremonyDto); fields modelled
from the spec's ceremony data model (section 3). -/
structure CeremonyDto where
  title : String
  startTime : ℚ
  endTime : ℚ
  timeoutMechanismType : Option CeremonyTimeoutType
  penaltyMinutes : ℚ
  coordinatorId : Nat
deriving DecidableEq, Repr

/-- A created ceremony record (spec section 3); a fresh ceremony starts
SCHEDULED. -/
structure Ceremony where
  title : String
  state : CeremonyState
  startTime : ℚ
  endTime : ℚ
  timeoutMechanismType : CeremonyTimeoutType
  penaltyMinutes : ℚ
  coordinatorId : Nat
deriving DecidableEq, Repr

/-- Modelled from the spec: CeremoniesService.create is not under src/.
Section 4.1: createCeremony validates startTime < endTime, penaltyMinutes at
least 1 and a valid timeoutMechanismType, failing with VALIDATION_ERROR
otherwise. -/
def serviceCreate (dto : CeremonyDto) : Except CoordError Ceremony :=
  if dto.startTime < dto.endTime then
    if 1 ≤ dto.penaltyMinutes then
      match dto.timeoutMechanismType with
      | some t =>
          Except.ok
            ⟨dto.title, CeremonyState.SCHEDULED, dto.startTime, dto.endTime, t,
              dto.penaltyMinutes, dto.coordinatorId⟩
      | none => Except.error CoordError.VALIDATION_ERROR
    else Except.error CoordError.VALIDATION_ERROR
  else Except.error CoordError.VALIDATION_ERROR

/-- The create route of src/unnamed/part_000 (lines 11 to 14): it carries no
UseGuards decorator, unlike testingCeremony and finalizeCeremony, and
delegates directly to the service regardless of the caller context. -/
def create (_a : AuthCtx) (dto : CeremonyDto) : Except CoordError Ceremony :=
  serviceCreate dto

/-- Validated output of the ceremony setup wizard, the `CeremonyInputData`
record assembled at the end of `promptCeremonyInputData` (prompts.ts). -/
structure CeremonyInputData where
  title : String
  description : String
  startDate : ℚ
  endDate : ℚ
  timeoutMechanismType : CeremonyTimeoutType
  penalty : ℚ
deriving DecidableEq, Repr

/-- A candidate set of answers to the ceremony setup questions of
`promptCeremonyInputData` (prompts.ts); a `none` mechanism stands for an
aborted selection. -/
structure CeremonySetupAnswers where
  title : String
  description : String
  startDate : ℚ
  endDate : ℚ
  timeoutMechanismType : Option CeremonyTimeoutType
  penalty : ℚ
deriving DecidableEq, Repr

/-- The validation flow of `promptCeremonyInputData`
(prompts.ts lines 31 to 147), as the acceptance function on one candidate
answer record: the title must be non-empty and its derived short identifier
must not collide with one already in use (`pfxOf` plays `extractPrefix` of
the zkmpc actions package, which is not under src/, and is kept abstract);
the description must be non-empty; the start date must be after `now`; the
end date after the start date; a timeout mechanism must be selected; the
penalty must be at least one minute.  A rejected answer yields `none`. -/
def promptCeremonyInputData (pfxOf : String → String) (usedPfxs : List String)
    (now : ℚ) (ans : CeremonySetupAnswers) : Option CeremonyInputData :=
  if ans.title.length = 0 then none
  else if pfxOf ans.title ∈ usedPfxs then none
  else if ans.description.length = 0 then none
  else if now < ans.startDate then
    if ans.startDate < ans.endDate then
      match ans.timeoutMechanismType with
      | some t =>
          if ans.penalty < 1 then none
          else some ⟨ans.title, ans.description, ans.startDate, ans.endDate, t, ans.penalty⟩
      | none => none
    else none
  else none

/-- Validated output of the circuit setup wizard, the `CircuitInputData`
record of `promptCircuitInputData` (prompts.ts): exactly one of the two
timeout fields is present in the assembled object. -/
structure CircuitInputData where
  description : String
  dynamicThreshold : Option ℚ
  fixedTimeWindow : Option ℚ
deriving DecidableEq, Repr

/-- A candidate set of answers to the circuit setup questions of
`promptCircuitInputData` (prompts.ts); `none` numeric answers stand for
aborted prompts. -/
structure CircuitSetupAnswers where
  description : String
  templateSource : String
  templateCommitHash : String
  dynamicThreshold : Option ℚ
  fixedTimeWindow : Option ℚ
deriving DecidableEq, Repr

/-- The validation flow of `promptCircuitInputData`
(prompts.ts lines 216 to 375), as the acceptance function on one candidate
answer record: non-empty description, a template link accepted by the circom
link pattern (kept abstract as `linkOk`), a 40-character template commit
hash; then, on a DYNAMIC ceremony, a dynamic threshold between 0 and 100 is
required and only `dynamicThreshold` is set in the output, while on a FIXED
ceremony a strictly positive fixed time window is required and only
`fixedTimeWindow` is set. -/
def promptCircuitInputData (linkOk : String → Bool)
    (timeoutMechanismType : CeremonyTimeoutType) (ans : CircuitSetupAnswers) :
    Option CircuitInputData :=
  if ans.description.length = 0 then none
  else if ¬ linkOk ans.templateSource then none
  else if ans.templateCommitHash.length ≠ 40 then none
  else
    match timeoutMechanismType with
    | CeremonyTimeoutType.DYNAMIC =>
        match ans.dynamicThreshold with
        | none => none
        | some v =>
            if v < 0 ∨ 100 < v then none
            else some ⟨ans.description, some v, none⟩
    | CeremonyTimeoutType.FIXED =>
        match ans.fixedTimeWindow with
        | none => none
        | some v =>
            if v ≤ 0 then none
            else some ⟨ans.description, none, some v⟩

/-- A quiet coordinator state: OPENED ceremony, free slot, empty queue and
ledgers, fixed five-minute window, nobody joined. -/
def initState : CoordState where
  ceremonyState := CeremonyState.OPENED
  coordinatorId := 0
  penaltyMinutes := 1
  timeoutMechanismType := CeremonyTimeoutType.FIXED
  dynamicThreshold := 0
  fixedTimeWindow := 5
  baselineAvg := 10
  avg := none
  currentContributor := none
  waitingQueue := []
  contributions := []
  timeoutEvents := []
  status := fun _ => PStatus.NONE
  timeoutCount := fun _ => 0

/-- A CLOSED ceremony holding one verified terminal contribution, ready to
finalize. -/
def closedState : CoordState :=
  { initState with
      ceremonyState := CeremonyState.CLOSED,
      contributions := [⟨1, 1, 0, 7, true, true, 10⟩] }

/-- An OPENED ceremony where participant 2 was evicted at time 0 under a
60-minute penalty. -/
def penState : CoordState :=
  { initState with
      penaltyMinutes := 60,
      timeoutEvents := [⟨2, 0⟩] }

/-- An OPENED ceremony under the DYNAMIC mechanism with baseline average 10
minutes, threshold 20 percent and no contribution yet. -/
def dynState : CoordState :=
  { initState with
      timeoutMechanismType := CeremonyTimeoutType.DYNAMIC,
      dynamicThreshold := 20 }

/-- Every CONTRIBUTING participant is the one held by `currentContributor`;
since that field holds at most one slot, this couples the status view of
mutual exclusion to the slot view (spec sections 3 and 8). -/
def ContributorCoupled (s : CoordState) : Prop :=
  ∀ p : Nat, s.status p = PStatus.CONTRIBUTING →
    ∃ c : Slot, s.currentContributor = some c ∧ c.participantId = p

/-- At most one participant has status CONTRIBUTING (spec section 8,
mutual exclusion). -/
def MutualExclusion (s : CoordState) : Prop :=
  ∀ p q : Nat, s.status p = PStatus.CONTRIBUTING →
    s.status q = PStatus.CONTRIBUTING → p = q

/-- The slot holder, if any, no longer has status CONTRIBUTING.  This is the
situation at both call sites of `releaseSlot`: the Contribution Chain
Validator has moved the contributor to DONE or TIMED_OUT, and the Timeout
Monitor to TIMED_OUT, before releasing (spec sections 4.2 to 4.4). -/
def slotHolderRetired (s : CoordState) : Prop :=
  ∀ c : Slot, s.currentContributor = some c →
    s.status c.participantId ≠ PStatus.CONTRIBUTING

lemma coupled_mutualExclusion {s : CoordState} (h : ContributorCoupled s) :
    MutualExclusion s := by
  intro p q hp hq
  obtain ⟨c, hc, hcp⟩ := h p hp
  obtain ⟨d, hd, hdp⟩ := h q hq
  rw [hc] at hd
  cases hd
  rw [← hcp, hdp]

lemma releaseSlot_coupled {s : CoordState} (now : ℚ)
    (h : ContributorCoupled s) (hr : slotHolderRetired s) :
    ContributorCoupled (releaseSlot s now) := by
  have hnone : ∀ p : Nat, s.status p ≠ PStatus.CONTRIBUTING := by
    intro p hp
    obtain ⟨c, hc, hcp⟩ := h p hp
    exact hr c hc (hcp ▸ hp)
  unfold releaseSlot
  cases hq : s.waitingQueue with
  | nil =>
      intro p hp
      exact absurd hp (hnone p)
  | cons w t =>
      intro p hp
      simp only at hp
      by_cases hpw : p = w
      · exact ⟨⟨w, now, computeDeadline s now⟩, rfl, hpw.symm⟩
      · rw [if_neg hpw] at hp
        exact absurd hp (hnone p)

lemma requestSlot_coupled {s : CoordState} (pid : Nat) (now : ℚ)
    (h : ContributorCoupled s) :
    ContributorCoupled (requestSlot s pid now).2 := by
  unfold requestSlot
  split
  · split
    · exact h
    · cases hc : s.currentContributor with
      | none =>
          dsimp only
          intro p hp
          dsimp only at hp
          by_cases hpp : p = pid
          · exact ⟨⟨pid, now, computeDeadline s now⟩, rfl, hpp.symm⟩
          · rw [if_neg hpp] at hp
            obtain ⟨c, hcc, _⟩ := h p hp
            rw [hc] at hcc
            cases hcc
      | some c =>
          dsimp only
          cases hidx : s.waitingQueue.findIdx? (fun q => q == pid) with
          | some i => exact h
          | none =>
              dsimp only
              intro p hp
              dsimp only at hp
              by_cases hpp : p = pid
              · rw [if_pos hpp] at hp
                cases hp
              · rw [if_neg hpp] at hp
                obtain ⟨d, hd, hdp⟩ := h p hp
                rw [hc] at hd
                cases hd
                exact ⟨c, rfl, hdp⟩
  · exact h

lemma submitContribution_coupled {s : CoordState} (pid : Nat) (now : ℚ)
    (verifierOk : Bool) (newHash : Nat) (h : ContributorCoupled s) :
    ContributorCoupled (submitContribution s pid now verifierOk newHash).2 := by
  unfold submitContribution
  split
  · exact h
  · cases hc : s.currentContributor with
    | none => exact h
    | some c =>
        dsimp only
        have hnone : ∀ p : Nat, s.status p = PStatus.CONTRIBUTING → p = c.participantId := by
          intro p hp
          obtain ⟨d, hd, hdp⟩ := h p hp
          rw [hc] at hd
          cases hd
          exact hdp.symm
        by_cases hcp : c.participantId = pid
        · rw [if_pos hcp]
          cases verifierOk with
          | true =>
              rw [if_pos rfl]
              apply releaseSlot_coupled now
              · intro p hp
                dsimp only at hp
                by_cases hpp : p = pid
                · rw [if_pos hpp] at hp
                  cases hp
                · rw [if_neg hpp] at hp
                  exact absurd (hcp ▸ hnone p hp) hpp
              · intro d hd hst
                dsimp only at hd hst
                cases hd
                rw [if_pos hcp] at hst
                cases hst
          | false =>
              rw [if_neg (fun hx => nomatch hx)]
              apply releaseSlot_coupled now
              · intro p hp
                dsimp only at hp
                by_cases hpp : p = pid
                · rw [if_pos hpp] at hp
                  cases hp
                · rw [if_neg hpp] at hp
                  exact absurd (hcp ▸ hnone p hp) hpp
              · intro d hd hst
                dsimp only at hd hst
                cases hd
                rw [if_pos hcp] at hst
                cases hst
        · rw [if_neg hcp]
          exact h

lemma checkTimeouts_coupled {s : CoordState} (now : ℚ)
    (h : ContributorCoupled s) :
    ContributorCoupled (checkTimeouts s now) := by
  unfold checkTimeouts
  split
  · cases hc : s.currentContributor with
    | none => exact h
    | some c =>
        dsimp only
        have hnone : ∀ p : Nat, s.status p = PStatus.CONTRIBUTING → p = c.participantId := by
          intro p hp
          obtain ⟨d, hd, hdp⟩ := h p hp
          rw [hc] at hd
          cases hd
          exact hdp.symm
        split
        · apply releaseSlot_coupled now
          · intro p hp
            dsimp only at hp
            by_cases hpp : p = c.participantId
            · rw [if_pos hpp] at hp
              cases hp
            · rw [if_neg hpp] at hp
              exact absurd (hnone p hp) hpp
          · intro d hd hst
            dsimp only at hd hst
            cases hd
            rw [if_pos rfl] at hst
            cases hst
        · exact h
  · exact h

lemma finalize_coupled {s : CoordState} (callerId : Nat)
    (h : ContributorCoupled s) :
    ContributorCoupled (finalize s callerId).2 := by
  unfold finalize
  split
  · split
    · exact h
    · split
      · split
        · intro p hp
          exact h p hp
        · exact h
      · exact h
  · exact h

/-- C1.  Mutual exclusion: in every state where each CONTRIBUTING participant
is the holder of the single `currentContributor` slot, at most one participant
has status CONTRIBUTING, and every operation — requestSlot,
submitContribution, checkTimeouts, finalize, and releaseSlot from its call
sites (where the outgoing contributor has already been moved off
CONTRIBUTING) — preserves that invariant. -/
theorem C1_mutual_exclusion (s : CoordState) (hInv : ContributorCoupled s) :
    MutualExclusion s
    ∧ (∀ pid : Nat, ∀ now : ℚ, ContributorCoupled (requestSlot s pid now).2)
    ∧ (∀ pid : Nat, ∀ now : ℚ, ∀ verifierOk : Bool, ∀ newHash : Nat,
        ContributorCoupled (submitContribution s pid now verifierOk newHash).2)
    ∧ (∀ now : ℚ, ContributorCoupled (checkTimeouts s now))
    ∧ (∀ callerId : Nat, ContributorCoupled (finalize s callerId).2)
    ∧ (∀ now : ℚ, slotHolderRetired s → ContributorCoupled (releaseSlot s now)) := by
  refine ⟨coupled_mutualExclusion hInv, ?_, ?_, ?_, ?_, ?_⟩
  · exact fun pid now => requestSlot_coupled pid now hInv
  · exact fun pid now verifierOk newHash =>
      submitContribution_coupled pid now verifierOk newHash hInv
  · exact fun now => checkTimeouts_coupled now hInv
  · exact fun callerId => finalize_coupled callerId hInv
  · exact fun now hr => releaseSlot_coupled now hInv hr

/-- C1 witness: the invariant holds of the quiet state and is preserved by a
slot request and a release there. -/
theorem C1_mutual_exclusion_witness :
    MutualExclusion initState
    ∧ ContributorCoupled (requestSlot initState 1 0).2
    ∧ ContributorCoupled (releaseSlot initState 0) := by
  have h0 : ContributorCoupled initState := by
    intro p hp
    simp [initState] at hp
  have hr0 : slotHolderRetired initState := by
    intro c hc
    simp [initState] at hc
  exact ⟨(C1_mutual_exclusion initState h0).1,
    (C1_mutual_exclusion initState h0).2.1 1 0,
    (C1_mutual_exclusion initState h0).2.2.2.2.2 0 hr0⟩

/-- A well-formed creation payload issued by an unauthenticated stranger
(caller 5 is not coordinator 9 and holds no session). -/
def strangerDto : CeremonyDto :=
  { title := "ceremony-a", startTime := 0, endTime := 10,
    timeoutMechanismType := some CeremonyTimeoutType.DYNAMIC,
    penaltyMinutes := 2, coordinatorId := 9 }

/-- C2 counterexample: an unauthenticated non-coordinator caller invokes the
create route and the call succeeds — it does not fail UNAUTHORIZED, because
the route carries no guard (src/unnamed/part_000 lines 11 to 14). -/
theorem C2_create_unguarded_counterexample :
    create ⟨false, 5⟩ strangerDto ≠ Except.error CoordError.UNAUTHORIZED
    ∧ (create ⟨false, 5⟩ strangerDto).isOk = true := by
  have h : create ⟨false, 5⟩ strangerDto =
      Except.ok ⟨"ceremony-a", CeremonyState.SCHEDULED, 0, 10,
        CeremonyTimeoutType.DYNAMIC, 2, 9⟩ := by
    unfold create serviceCreate strangerDto
    norm_num
  rw [h]
  exact ⟨fun hx => Except.noConfusion hx, rfl⟩

/-- C2 amended: the create route applies no authorization guard — its result
is independent of the caller's session and identity, and it never fails
UNAUTHORIZED; creation is gated only by input validation. -/
theorem C2_create_unguarded (a b : AuthCtx) (dto : CeremonyDto) :
    create a dto = create b dto
    ∧ create a dto ≠ Except.error CoordError.UNAUTHORIZED := by
  refine ⟨rfl, ?_⟩
  unfold create serviceCreate
  split
  · split
    · cases dto.timeoutMechanismType <;> simp
    · simp
  · simp

/-- C3 counterexample: the claimed update rule avg = (avg * n + d) / (n + 1),
with n the number of previously verified contributions, does not yield the
claimed 10.75-minute average after a first 11.5-minute contribution on a
baseline of 10 (it yields 11.5); and even an average of 10.75 minutes with a
20 percent threshold yields a deadline 12.9 minutes after the grant, not the
claimed 13.  The run below grants the free slot of `dynState` to participant
1 at time 0 and submits a verified contribution at 11.5 minutes. -/
theorem C3_dynamic_deadline_counterexample :
    (submitContribution (requestSlot dynState 1 0).2 1 (23/2) true 7).2.avg
        = some (23/2)
    ∧ updateAvg 10 0 (23/2) ≠ 43/4
    ∧ computeDeadline { dynState with avg := some (43/4) } 0 ≠ 13 := by
  refine ⟨?_, by norm_num [updateAvg], ?_⟩
  · simp [requestSlot, submitContribution, releaseSlot, penaltyActive,
      dynState, initState, currentAvg, verifiedCount, updateAvg, computeDeadline]
  · simp [computeDeadline, currentAvg, dynState, initState]
    norm_num

/-- C3 amended: under DYNAMIC the deadline is startedAt + avg * (1 +
threshold / 100) and after each verified contribution avg becomes
(avg * n + durationMs) / (n + 1) with n the number of previously verified
contributions; with baseline 10 minutes and threshold 20 percent the first
deadline is 12 minutes from grant; the first contribution taking 11.5
minutes makes the average 11.5 and the next deadline 13.8 minutes.  (The
documented figures — average 10.75 and 13 minutes — correspond to a current
average of 10 built from one prior verified contribution: then the update
yields 10.75, whose exact next deadline is 12.9 minutes, which the prompt
text of prompts.ts rounds up to 13.) -/
theorem C3_dynamic_deadline :
    computeDeadline dynState 0 = 12
    ∧ (submitContribution (requestSlot dynState 1 0).2 1 (23/2) true 7).2.avg
        = some (23/2)
    ∧ updateAvg 10 0 (23/2) = 23/2
    ∧ computeDeadline { dynState with avg := some (23/2) } 0 = 69/5
    ∧ updateAvg 10 1 (23/2) = 43/4
    ∧ computeDeadline { dynState with avg := some (43/4) } 0 = 129/10 := by
  refine ⟨?_, ?_, by norm_num [updateAvg], ?_, by norm_num [updateAvg], ?_⟩
  · simp [computeDeadline, currentAvg, dynState, initState]
    norm_num
  · simp [requestSlot, submitContribution, releaseSlot, penaltyActive,
      dynState, initState, currentAvg, verifiedCount, updateAvg, computeDeadline]
  · simp [computeDeadline, currentAvg, dynState, initState]
    norm_num
  · simp [computeDeadline, currentAvg, dynState, initState]
    norm_num

/-- C4.  Ceremony setup input is validated: whenever the flow of
`promptCeremonyInputData` accepts a candidate answer record and produces a
configuration, that configuration has its start date strictly before its end
date, a penalty of at least one minute, and a timeout mechanism that is one
of DYNAMIC or FIXED; contrapositively, every candidate violating one of
these conditions is rejected and yields no configuration. -/
theorem C4_ceremony_validation (pfxOf : String → String) (usedPfxs : List String)
    (now : ℚ) (ans : CeremonySetupAnswers) (cfg : CeremonyInputData)
    (h : promptCeremonyInputData pfxOf usedPfxs now ans = some cfg) :
    cfg.startDate < cfg.endDate ∧ 1 ≤ cfg.penalty
    ∧ (cfg.timeoutMechanismType = CeremonyTimeoutType.DYNAMIC
        ∨ cfg.timeoutMechanismType = CeremonyTimeoutType.FIXED) := by
  unfold promptCeremonyInputData at h
  rcases hmt : ans.timeoutMechanismType with _ | t
  · rw [hmt] at h
    dsimp only at h
    split_ifs at h
  · rw [hmt] at h
    dsimp only at h
    split_ifs at h with h1 h2 h3 h4 h5 h6
    rw [Option.some.injEq] at h
    subst h
    refine ⟨h5, le_of_not_lt h6, ?_⟩
    cases t
    · exact Or.inl rfl
    · exact Or.inr rfl

/-- Accepted answers for the ceremony wizard used as the C4 witness input. -/
def ceremonyAns : CeremonySetupAnswers :=
  { title := "apollo", description := "first ceremony", startDate := 1,
    endDate := 2, timeoutMechanismType := some CeremonyTimeoutType.FIXED,
    penalty := 3 }

/-- The configuration the ceremony wizard assembles from `ceremonyAns`. -/
def ceremonyCfg : CeremonyInputData :=
  { title := "apollo", description := "first ceremony", startDate := 1,
    endDate := 2, timeoutMechanismType := CeremonyTimeoutType.FIXED,
    penalty := 3 }

/-- C4 witness: the wizard accepts `ceremonyAns`, and the produced
configuration satisfies the validated bounds. -/
theorem C4_ceremony_validation_witness :
    ceremonyCfg.startDate < ceremonyCfg.endDate ∧ 1 ≤ ceremonyCfg.penalty
    ∧ (ceremonyCfg.timeoutMechanismType = CeremonyTimeoutType.DYNAMIC
        ∨ ceremonyCfg.timeoutMechanismType = CeremonyTimeoutType.FIXED) :=
  C4_ceremony_validation id ["zeus"] 0 ceremonyAns ceremonyCfg (by decide)

/-- C5.  Every circuit configuration produced by the circuit wizard sets
exactly one of dynamicThreshold and fixedTimeWindow, matching the parent
ceremony's timeout mechanism: under DYNAMIC only a threshold between 0 and
100 is set, under FIXED only a strictly positive time window is set. -/
theorem C5_circuit_timeout_fields (linkOk : String → Bool)
    (t : CeremonyTimeoutType) (ans : CircuitSetupAnswers) (cfg : CircuitInputData)
    (h : promptCircuitInputData linkOk t ans = some cfg) :
    (t = CeremonyTimeoutType.DYNAMIC →
      ∃ v : ℚ, cfg.dynamicThreshold = some v ∧ 0 ≤ v ∧ v ≤ 100
        ∧ cfg.fixedTimeWindow = none)
    ∧ (t = CeremonyTimeoutType.FIXED →
      ∃ v : ℚ, cfg.fixedTimeWindow = some v ∧ 0 < v
        ∧ cfg.dynamicThreshold = none) := by
  unfold promptCircuitInputData at h
  cases t with
  | DYNAMIC =>
      rcases hdt : ans.dynamicThreshold with _ | v
      · rw [hdt] at h
        dsimp only at h
        split_ifs at h
      · rw [hdt] at h
        dsimp only at h
        split_ifs at h with h1 h2 h3 h4
        rw [Option.some.injEq] at h
        subst h
        push_neg at h4
        exact ⟨fun _ => ⟨v, rfl, h4.1, h4.2, rfl⟩, fun hx => absurd hx (by decide)⟩
  | FIXED =>
      rcases hft : ans.fixedTimeWindow with _ | v
      · rw [hft] at h
        dsimp only at h
        split_ifs at h
      · rw [hft] at h
        dsimp only at h
        split_ifs at h with h1 h2 h3 h4
        rw [Option.some.injEq] at h
        subst h
        exact ⟨fun hx => absurd hx (by decide), fun _ => ⟨v, rfl, lt_of_not_le h4, rfl⟩⟩

/-- Accepted answers for the circuit wizard on a DYNAMIC ceremony, used as
the C5 witness input (a 40-character template commit hash). -/
def circuitAns : CircuitSetupAnswers :=
  { description := "adder circuit", templateSource := "adder-template",
    templateCommitHash := "aaaaaaaaaabbbbbbbbbbccccccccccdddddddddd",
    dynamicThreshold := some 25, fixedTimeWindow := none }

/-- The configuration the circuit wizard assembles from `circuitAns`. -/
def circuitCfg : CircuitInputData :=
  { description := "adder circuit", dynamicThreshold := some 25,
    fixedTimeWindow := none }

/-- C5 witness: on a DYNAMIC ceremony the wizard accepts `circuitAns` and
produces a configuration with only the dynamic threshold set, inside the
bounds. -/
theorem C5_circuit_timeout_fields_witness :
    (CeremonyTimeoutType.DYNAMIC = CeremonyTimeoutType.DYNAMIC →
      ∃ v : ℚ, circuitCfg.dynamicThreshold = some v ∧ 0 ≤ v ∧ v ≤ 100
        ∧ circuitCfg.fixedTimeWindow = none)
    ∧ (CeremonyTimeoutType.DYNAMIC = CeremonyTimeoutType.FIXED →
      ∃ v : ℚ, circuitCfg.fixedTimeWindow = some v ∧ 0 < v
        ∧ circuitCfg.dynamicThreshold = none) :=
  C5_circuit_timeout_fields (fun _ => true) CeremonyTimeoutType.DYNAMIC
    circuitAns circuitCfg (by decide)

/-- C6.  The finalize route is guarded by both the session check (JWTGuard)
and the coordinator-ownership check (CeremonyGuard): every caller lacking a
valid session or whose identity differs from the ceremony coordinator gets
UNAUTHORIZED and the state is returned unchanged. -/
theorem C6_finalize_guarded (s : CoordState) (a : AuthCtx)
    (h : a.validSession = false ∨ a.callerId ≠ s.coordinatorId) :
    finalizeCeremony s a = (Except.error CoordError.UNAUTHORIZED, s) := by
  unfold finalizeCeremony jwtGuard ceremonyGuard
  rcases h with h | h
  · simp [h]
  · cases hv : a.validSession
    · simp
    · simp [h]

/-- C6 witness: an unauthenticated caller gets UNAUTHORIZED from the
finalize route with the state untouched. -/
theorem C6_finalize_guarded_witness :
    finalizeCeremony initState ⟨false, 0⟩ = (Except.error CoordError.UNAUTHORIZED, initState) :=
  C6_finalize_guarded initState ⟨false, 0⟩ (Or.inl rfl)

/-- C7.  Finalize is idempotent for the coordinator: on an already FINALIZED
ceremony it returns success and leaves the state unchanged, and on a
fully-complete CLOSED ceremony two successive calls return the same
successful FINALIZED result with no further state change. -/
theorem C7_finalize_idempotent (s : CoordState) :
    (s.ceremonyState = CeremonyState.FINALIZED →
      finalize s s.coordinatorId = (Except.ok (), s))
    ∧ (s.ceremonyState = CeremonyState.CLOSED → hasTerminalVerified s = true →
      finalize s s.coordinatorId =
        (Except.ok (), { s with ceremonyState := CeremonyState.FINALIZED })
      ∧ finalize { s with ceremonyState := CeremonyState.FINALIZED } s.coordinatorId =
        (Except.ok (), { s with ceremonyState := CeremonyState.FINALIZED })) := by
  constructor
  · intro hf
    unfold finalize
    rw [if_pos rfl, if_pos hf]
  · intro hc ht
    have hne : ¬ s.ceremonyState = CeremonyState.FINALIZED := by
      rw [hc]
      decide
    constructor
    · unfold finalize
      rw [if_pos rfl, if_neg hne, if_pos hc, if_pos ht]
    · unfold finalize
      rw [if_pos rfl, if_pos rfl]

/-- C7 witness: finalizing the complete CLOSED ceremony `closedState` twice
gives the same successful FINALIZED state both times. -/
theorem C7_finalize_idempotent_witness :
    finalize closedState closedState.coordinatorId =
      (Except.ok (), { closedState with ceremonyState := CeremonyState.FINALIZED })
    ∧ finalize { closedState with ceremonyState := CeremonyState.FINALIZED }
        closedState.coordinatorId =
      (Except.ok (), { closedState with ceremonyState := CeremonyState.FINALIZED }) :=
  (C7_finalize_idempotent closedState).2 rfl rfl

/-- C8.  The diagnostic slot-echo route returns exactly the object carrying
the ceremonyId it was given whenever the caller passes both the session
guard and the ceremony guard, and returns UNAUTHORIZED whenever either guard
fails. -/
theorem C8_testing_echo (s : CoordState) (a : AuthCtx) (cid : Nat) :
    (jwtGuard a = true → ceremonyGuard s a = true →
      testingCeremony s a cid = Except.ok ⟨cid⟩)
    ∧ ((jwtGuard a = false ∨ ceremonyGuard s a = false) →
      testingCeremony s a cid = Except.error CoordError.UNAUTHORIZED) := by
  constructor
  · intro h1 h2
    unfold testingCeremony
    rw [if_pos h1, if_pos h2]
  · intro h
    unfold testingCeremony
    rcases h with h | h
    · rw [if_neg (by simp [h])]
    · cases hv : jwtGuard a
      · simp
      · simp [h]

/-- C8 witness: with both guards passing the echo returns the given id 42,
and an unauthenticated caller gets UNAUTHORIZED. -/
theorem C8_testing_echo_witness :
    testingCeremony initState ⟨true, 0⟩ 42 = Except.ok ⟨42⟩
    ∧ testingCeremony initState ⟨false, 0⟩ 42 = Except.error CoordError.UNAUTHORIZED :=
  ⟨(C8_testing_echo initState ⟨true, 0⟩ 42).1 rfl rfl,
   (C8_testing_echo initState ⟨false, 0⟩ 42).2 (Or.inl rfl)⟩

/-- C9.  Penalty gating of requestSlot on an OPENED ceremony: while the
participant holds a TimeoutEvent with timestamp + penaltyMinutes > now the
request fails PENALTY_ACTIVE, and once every such event satisfies
timestamp + penaltyMinutes ≤ now the request succeeds (a grant or a queue
position). -/
theorem C9_penalty_gating (s : CoordState) (pid : Nat) (now : ℚ) :
    (s.ceremonyState = CeremonyState.OPENED →
      (∃ te ∈ s.timeoutEvents, te.participantId = pid
        ∧ now < te.timestamp + s.penaltyMinutes) →
      (requestSlot s pid now).1 = Except.error CoordError.PENALTY_ACTIVE)
    ∧ (s.ceremonyState = CeremonyState.OPENED →
      (∀ te ∈ s.timeoutEvents, te.participantId = pid →
        te.timestamp + s.penaltyMinutes ≤ now) →
      ∃ r : SlotOutcome, (requestSlot s pid now).1 = Except.ok r) := by
  have hiff : penaltyActive s pid now = true ↔
      ∃ te ∈ s.timeoutEvents, te.participantId = pid
        ∧ now < te.timestamp + s.penaltyMinutes := by
    simp [penaltyActive, List.any_eq_true]
  constructor
  · intro hopen hex
    unfold requestSlot
    rw [if_pos hopen, if_pos (hiff.mpr hex)]
  · intro hopen hall
    have hpen : ¬ penaltyActive s pid now = true := by
      rw [hiff]
      push_neg
      exact hall
    unfold requestSlot
    rw [if_pos hopen, if_neg hpen]
    cases hc : s.currentContributor with
    | none => exact ⟨_, rfl⟩
    | some c =>
        dsimp only
        cases hidx : s.waitingQueue.findIdx? (fun q => q == pid) with
        | some i => exact ⟨_, rfl⟩
        | none => exact ⟨_, rfl⟩

/-- C9 witness: participant 2, evicted at time 0 under a 60-minute penalty,
gets PENALTY_ACTIVE when requesting at minute 30 and succeeds when
requesting at minute 60. -/
theorem C9_penalty_gating_witness :
    (requestSlot penState 2 30).1 = Except.error CoordError.PENALTY_ACTIVE
    ∧ ∃ r : SlotOutcome, (requestSlot penState 2 60).1 = Except.ok r := by
  constructor
  · exact (C9_penalty_gating penState 2 30).1 rfl
      ⟨⟨2, 0⟩, by simp [penState, initState], rfl, by norm_num [penState, initState]⟩
  · refine (C9_penalty_gating penState 2 60).2 rfl ?_
    intro te hte hpid
    have hte2 : te = ⟨2, 0⟩ := by
      simpa [penState, initState] using hte
    subst hte2
    simp [penState, initState]

/-- C10.  Implicit prefix-freshness at creation: whenever the ceremony
wizard accepts a title, the derived short identifier of that title is not
among those already in use, so identifiers stay unique across the store at
creation time. -/
theorem C10_title_collision_rejected (pfxOf : String → String)
    (usedPfxs : List String) (now : ℚ) (ans : CeremonySetupAnswers)
    (cfg : CeremonyInputData)
    (h : promptCeremonyInputData pfxOf usedPfxs now ans = some cfg) :
    pfxOf cfg.title ∉ usedPfxs := by
  unfold promptCeremonyInputData at h
  rcases hmt : ans.timeoutMechanismType with _ | t
  · rw [hmt] at h
    dsimp only at h
    split_ifs at h
  · rw [hmt] at h
    dsimp only at h
    split_ifs at h with h1 h2 h3 h4 h5 h6
    rw [Option.some.injEq] at h
    subst h
    exact h2

/-- Accepted answers for the ceremony wizard used as the C10 witness input. -/
def ceremonyAns2 : CeremonySetupAnswers :=
  { title := "artemis", description := "second ceremony", startDate := 5,
    endDate := 8, timeoutMechanismType := some CeremonyTimeoutType.DYNAMIC,
    penalty := 1 }

/-- The configuration the ceremony wizard assembles from `ceremonyAns2`. -/
def ceremonyCfg2 : CeremonyInputData :=
  { title := "artemis", description := "second ceremony", startDate := 5,
    endDate := 8, timeoutMechanismType := CeremonyTimeoutType.DYNAMIC,
    penalty := 1 }

/-- C10 witness: the wizard accepts the fresh title of `ceremonyAns2`
against the in-use identifier list, and the accepted title's identifier is
indeed not in that list. -/
theorem C10_title_collision_rejected_witness :
    id ceremonyCfg2.title ∉ ["hera"] :=
  C10_title_collision_rejected id ["hera"] 0 ceremonyAns2 ceremonyCfg2 (by decide)

end P0tion
